import Mathlib

/-!
Shallow embedding of emberdb's tile storage (src/mvcc/src/storage/tile.rs)
and of the 2PL lock manager's shared-lock path (src/sql/src/sql/cc.rs),
with theorems checking the specification's claims against it.

Machine integers are modelled as `Nat` with explicit `% 2^32` where the
source uses wrapping `u32` arithmetic (`AtomicU32::fetch_add`, `as u32`
casts).  A Rust `panic!` is modelled as `Option.none`.  Byte buffers are
`List Nat`.
-/

namespace EmberDB

/-- `u32::MAX`, the sentinel slot id meaning "tile group full". -/
def u32MAX : Nat := 2 ^ 32 - 1

/-- enum ValueType (tile.rs): column value types. -/
inductive ValueType
  | Integer
  | Double
  | TinyInt
  | Varchar
  deriving DecidableEq, Repr

/-- ValueType::get_length (tile.rs): fixed byte width of an inlined type;
the wildcard arm panics (modelled as `none`), which Varchar hits. -/
def ValueType.get_length : ValueType → Option Nat
  | .Integer => some 4
  | .TinyInt => some 1
  | .Double => some 8
  | _ => none

/-- struct Column (tile.rs), fields in source order. -/
structure Column where
  value_type : ValueType
  length : Nat
  name : String
  is_inlined : Bool
  col_offset : Nat
  deriving DecidableEq, Repr

/-- Column::new_dynamic (tile.rs): only Varchar is accepted, producing a
non-inlined column of the declared length; every other type panics. -/
def Column.new_dynamic (value_type : ValueType) (name : String) (length : Nat) :
    Option Column :=
  match value_type with
  | .Varchar =>
      some { value_type := .Varchar, length := length, name := name,
             is_inlined := false, col_offset := 0 }
  | _ => none

/-- Column::new_static (tile.rs): length comes from ValueType::get_length,
so the call panics (none) exactly when that does; the column is inlined. -/
def Column.new_static (value_type : ValueType) (name : String) : Option Column :=
  (value_type.get_length).map fun length =>
    { value_type := value_type, length := length, name := name,
      is_inlined := true, col_offset := 0 }

/-- struct Schema (tile.rs). -/
structure Schema where
  cols : List Column
  col_types : List ValueType
  col_names : List String
  col_lengths : List Nat
  col_is_inlined : List Bool
  tuple_length : Nat
  deriving DecidableEq, Repr

/-- The second loop of Schema::new (tile.rs): walk the columns with a running
offset, store the current offset into each column, and return the rewritten
columns together with the final offset (which becomes tuple_length). -/
def assignOffsets : List Column → Nat → List Column × Nat
  | [], col_offset => ([], col_offset)
  | c :: rest, col_offset =>
      let tail := assignOffsets rest (col_offset + c.length)
      ({ c with col_offset := col_offset } :: tail.1, tail.2)

/-- Schema::new (tile.rs): copies per-column metadata, assigns offsets in
declaration order, and sets tuple_length to the final running offset.
Note the source performs no validation and has no failure path. -/
def Schema.new (cols : List Column) : Schema :=
  let assigned := assignOffsets cols 0
  { cols := assigned.1
    col_types := cols.map (·.value_type)
    col_names := cols.map (·.name)
    col_lengths := cols.map (·.length)
    col_is_inlined := cols.map (·.is_inlined)
    tuple_length := assigned.2 }

/-- Schema::get_length (tile.rs). -/
def Schema.get_length (s : Schema) : Nat := s.tuple_length

/-- struct TileGroupHeader (tile.rs): the atomic slot cursor (a u32, kept
as a Nat that is always < 2^32) and the slot capacity (a usize). -/
structure TileGroupHeader where
  next_tuple_slot : Nat
  num_tuple_slot : Nat
  deriving DecidableEq, Repr

/-- TileGroupHeader::new (tile.rs): cursor starts at 0. -/
def TileGroupHeader.new (tuple_count : Nat) : TileGroupHeader :=
  { next_tuple_slot := 0, num_tuple_slot := tuple_count }

/-- TileGroupHeader::next_empty_tuple_slot (tile.rs): wrapping fetch_add(1)
on the u32 cursor; the previous value is returned unless it is `>=` the
capacity truncated to u32 (`num_tuple_slot as u32`), in which case the
sentinel u32::MAX is returned.  The increment happens unconditionally. -/
def TileGroupHeader.next_empty_tuple_slot (h : TileGroupHeader) :
    Nat × TileGroupHeader :=
  let tuple_slot_id := h.next_tuple_slot
  let h' := { h with next_tuple_slot := (h.next_tuple_slot + 1) % 2 ^ 32 }
  if h.num_tuple_slot % 2 ^ 32 ≤ tuple_slot_id then (u32MAX, h')
  else (tuple_slot_id, h')

/-- A sequence of N calls to next_empty_tuple_slot, returning the list of
slot ids handed out (in call order) and the final header state. -/
def allocSeq : Nat → TileGroupHeader → List Nat × TileGroupHeader
  | 0, h => ([], h)
  | n + 1, h =>
      let step := h.next_empty_tuple_slot
      let rest := allocSeq n step.2
      (step.1 :: rest.1, rest.2)

/-- struct Tile (tile.rs), the layout-relevant fields: the backing buffer's
byte size (`tuple_count * schema.tuple_length`) and the schema. -/
structure Tile where
  tile_size : Nat
  schema : Schema
  deriving DecidableEq, Repr

/-- Tile::new (tile.rs): allocates `tuple_count * tuple_length` bytes. -/
def Tile.new (schema : Schema) (tuple_count : Nat) : Tile :=
  { tile_size := tuple_count * schema.tuple_length, schema := schema }

/-- Tile::get_tuple_location (tile.rs): the returned `&mut [u8]` starts at
byte `tuple_slot_id * tuple_length` of the buffer and — as written in the
source — has length `self.tile_size` (from_raw_parts_mut's second argument),
not `tuple_length`.  Modelled as the (start, length) pair of the window. -/
def Tile.get_tuple_location (t : Tile) (tuple_slot_id : Nat) : Nat × Nat :=
  (tuple_slot_id * t.schema.tuple_length, t.tile_size)

/-- Modelled from the spec: values are carried as their fixed-width byte
encoding (storage/tuple.rs, which holds Tuple/Value/BorrowedTuple, is not
under src/).  A tuple is the list of its column values' encodings. -/
abbrev Value := List Nat

/-- Modelled from the spec: BorrowedTuple::set_value "copies the fixed-width
encoding into the column's byte range" — overwrite `bytes` into `buf`
starting at byte `off`, leaving every other byte unchanged (writes falling
outside the buffer are dropped; reaching them is out of scope here). -/
def writeBytes (buf : List Nat) (off : Nat) (bytes : List Nat) : List Nat :=
  (List.range buf.length).zipWith
    (fun i b => if off ≤ i ∧ i < off + bytes.length then bytes.getD (i - off) b else b)
    buf

/-- The inner column loop of TileGroup::insert_tuple for one tile: write each
of the tile's column values at `slot * tuple_length + col_offset`. -/
def writeTile (schema : Schema) (slot : Nat) (buf : List Nat)
    (vals : List Value) : List Nat :=
  (schema.cols.zip vals).foldl
    (fun b cv => writeBytes b (slot * schema.tuple_length + cv.1.col_offset) cv.2)
    buf

/-- The outer tile loop of TileGroup::insert_tuple: tile `i` consumes the
next `schemas[i].cols.length` values of the flat tuple (the running
`col_iter` of the source). -/
def writeTiles (slot : Nat) :
    List (List Nat) → List Schema → List Value → List (List Nat)
  | [], _, _ => []
  | t :: ts, [], _ => t :: ts
  | t :: ts, s :: ss, vals =>
      writeTile s slot t (vals.take s.cols.length) ::
        writeTiles slot ts ss (vals.drop s.cols.length)

/-- struct TileGroup (tile.rs): per-tile byte buffers, their schemas, and the
shared header.  The col_map is not needed by any claim. -/
structure TileGroupState where
  tiles : List (List Nat)
  schemas : List Schema
  header : TileGroupHeader
  deriving DecidableEq, Repr

/-- TileGroup::insert_tuple (tile.rs): ask the header for a slot; if it is
the u32::MAX sentinel, return it at once (before touching any tile);
otherwise write the tuple's values into every tile at that slot. -/
def TileGroupState.insert_tuple (g : TileGroupState) (tuple : List Value) :
    Nat × TileGroupState :=
  let step := g.header.next_empty_tuple_slot
  let tuple_slot_id := step.1
  if tuple_slot_id = u32MAX then
    (tuple_slot_id, { g with header := step.2 })
  else
    (tuple_slot_id,
     { g with header := step.2,
              tiles := writeTiles tuple_slot_id g.tiles g.schemas tuple })

/-- Modelled from the spec: isolation levels "(ReadUncommitted, ReadCommitted,
RepeatableRead[, Serializable])" (tx.rs is not under src/). -/
inductive IsolationLevel
  | ReadUncommitted
  | ReadCommitted
  | RepeatableRead
  | Serializable
  deriving DecidableEq, Repr

/-- enum TwoPLState referenced by cc.rs (tx.rs is not under src/): the 2PL
phase of a transaction. -/
inductive TwoPLState
  | Growing
  | Shrinking
  deriving DecidableEq, Repr

/-- Modelled from the spec: terminal outcome of a transaction, "(running,
committed, aborted)". -/
inductive TxnOutcome
  | Running
  | Committed
  | Aborted
  deriving DecidableEq, Repr

/-- Modelled from the spec: per-transaction state — "isolation level, 2PL
phase, sets of row ids held in shared mode and in exclusive mode, terminal
outcome" (tx.rs is not under src/).  Row ids (RID) are Nat. -/
structure Txn where
  isolation_level : IsolationLevel
  state : TwoPLState
  shared_rids : List Nat
  excl_rids : List Nat
  outcome : TxnOutcome
  deriving DecidableEq, Repr

/-- Modelled from the spec: Txn::s_locked — does the transaction hold a
shared lock on this row id. -/
def Txn.s_locked (t : Txn) (rid : Nat) : Bool := t.shared_rids.contains rid

/-- Modelled from the spec: Txn::x_locked — does the transaction hold an
exclusive lock on this row id. -/
def Txn.x_locked (t : Txn) (rid : Nat) : Bool := t.excl_rids.contains rid

/-- Modelled from the spec: Txn::abort marks the terminal outcome aborted. -/
def Txn.abortTxn (t : Txn) : Txn := { t with outcome := .Aborted }

/-- Outcome of LockMgr::lock_s as far as the source defines it:
`failed` = the function returns false after aborting the transaction;
`granted` = the function returns true (already-held no-op);
`pending` = control reaches the enqueue-and-wait tail, which the source
leaves unimplemented (the function body ends at `get_queue(rid).unwrap()`). -/
inductive LockSOutcome
  | failed
  | granted
  | pending
  deriving DecidableEq, Repr

/-- struct LockMgr (cc.rs): the lock table, a map from RID to its request
queue; queues are opaque here since no defined path of lock_s mutates them. -/
structure LockMgr where
  lock_table : List (Nat × List Nat)
  deriving DecidableEq, Repr

/-- The code after lock_s's isolation-level match (cc.rs lines 41-46): an
already-held shared or exclusive lock is a successful no-op; otherwise the
source falls into its unimplemented enqueue path. -/
def lockSTail (m : LockMgr) (txn : Txn) (rid : Nat) :
    LockSOutcome × Txn × LockMgr :=
  if txn.s_locked rid || txn.x_locked rid then (.granted, txn, m)
  else (.pending, txn, m)

/-- LockMgr::lock_s (cc.rs): ReadUncommitted aborts immediately;
RepeatableRead aborts when already Shrinking; every other isolation level
(the `_ => {}` arm) performs no phase check and falls through to the
already-held test. -/
def LockMgr.lock_s (m : LockMgr) (txn : Txn) (rid : Nat) :
    LockSOutcome × Txn × LockMgr :=
  match txn.isolation_level with
  | .ReadUncommitted => (.failed, txn.abortTxn, m)
  | .RepeatableRead =>
      if txn.state = TwoPLState.Shrinking then (.failed, txn.abortTxn, m)
      else lockSTail m txn rid
  | _ => lockSTail m txn rid

/-! ## Helper lemmas -/

lemma assignOffsets_snd (cols : List Column) :
    ∀ s, (assignOffsets cols s).2 = s + (cols.map Column.length).sum := by
  induction cols with
  | nil => intro s; simp [assignOffsets]
  | cons c rest ih =>
      intro s
      simp [assignOffsets, ih (s + c.length)]
      omega

lemma assignOffsets_map_length (cols : List Column) :
    ∀ s, ((assignOffsets cols s).1).map Column.length = cols.map Column.length := by
  induction cols with
  | nil => intro s; simp [assignOffsets]
  | cons c rest ih =>
      intro s
      simp [assignOffsets, ih (s + c.length)]

lemma assignOffsets_map_offset (cols : List Column) :
    ∀ s, ((assignOffsets cols s).1).map Column.col_offset
      = (List.range cols.length).map (fun i => s + ((cols.map Column.length).take i).sum) := by
  induction cols with
  | nil => intro s; simp [assignOffsets]
  | cons c rest ih =>
      intro s
      have hfun : (fun i => s + c.length + ((rest.map Column.length).take i).sum)
          = ((fun i => s + ((c.length :: rest.map Column.length).take i).sum) ∘ Nat.succ) := by
        funext i
        simp only [Function.comp_apply, Nat.succ_eq_add_one, List.take_succ_cons,
          List.sum_cons]
        omega
      simp only [assignOffsets, List.map_cons, List.length_cons,
        List.range_succ_eq_map, List.map_map, ih (s + c.length), hfun]
      congr 1

/-- Closed form of a run of N allocations from cursor position s, as long as
the cursor does not pass 2^32: call i returns s+i when that is below the
capacity and the sentinel otherwise, and the cursor ends at (s+N) mod 2^32. -/
lemma allocSeq_closed (C : Nat) (hC : C < 2 ^ 32) :
    ∀ N s, s < 2 ^ 32 → s + N ≤ 2 ^ 32 →
      allocSeq N { next_tuple_slot := s, num_tuple_slot := C }
        = ((List.range N).map (fun i => if C ≤ s + i then u32MAX else s + i),
           { next_tuple_slot := (s + N) % 2 ^ 32, num_tuple_slot := C }) := by
  intro N
  induction N with
  | zero =>
      intro s hs _
      have e0 : s + 0 = s := rfl
      rw [e0, Nat.mod_eq_of_lt hs]
      rfl
  | succ n ih =>
      intro s hs hsn
      have hstep :
          ({ next_tuple_slot := s, num_tuple_slot := C } :
            TileGroupHeader).next_empty_tuple_slot
            = (if C ≤ s then u32MAX else s,
               { next_tuple_slot := (s + 1) % 2 ^ 32, num_tuple_slot := C }) := by
        have h0 : ({ next_tuple_slot := s, num_tuple_slot := C } :
            TileGroupHeader).next_empty_tuple_slot
            = if C % 2 ^ 32 ≤ s then
                (u32MAX, { next_tuple_slot := (s + 1) % 2 ^ 32, num_tuple_slot := C })
              else
                (s, { next_tuple_slot := (s + 1) % 2 ^ 32, num_tuple_slot := C }) := rfl
        rw [h0, Nat.mod_eq_of_lt hC]
        by_cases hcs : C ≤ s
        · rw [if_pos hcs, if_pos hcs]
        · rw [if_neg hcs, if_neg hcs]
      have hall : allocSeq (n + 1)
          ({ next_tuple_slot := s, num_tuple_slot := C } : TileGroupHeader)
          = (({ next_tuple_slot := s, num_tuple_slot := C } :
                TileGroupHeader).next_empty_tuple_slot.1 ::
              (allocSeq n ({ next_tuple_slot := s, num_tuple_slot := C } :
                TileGroupHeader).next_empty_tuple_slot.2).1,
             (allocSeq n ({ next_tuple_slot := s, num_tuple_slot := C } :
                TileGroupHeader).next_empty_tuple_slot.2).2) := rfl
      rw [hall, hstep]
      rcases Nat.lt_or_ge (s + 1) (2 ^ 32) with hs1 | hs1
      · have hfun : (fun i => if C ≤ s + 1 + i then u32MAX else s + 1 + i)
            = ((fun i => if C ≤ s + i then u32MAX else s + i) ∘ Nat.succ) := by
          funext i
          have e : s + Nat.succ i = s + 1 + i := by omega
          simp only [Function.comp_apply, e]
        have e2 : s + 1 + n = s + (n + 1) := by omega
        rw [Nat.mod_eq_of_lt hs1, ih (s + 1) hs1 (by omega), hfun, e2,
          List.range_succ_eq_map, List.map_cons, List.map_map]
        rfl
      · have hs2 : (s + 1) % 2 ^ 32 = 0 := by omega
        have hn : n = 0 := by omega
        subst hn
        rw [hs2]
        rfl

/-- Unfolding of next_empty_tuple_slot in the `if`-outside shape of the
source, usable on an abstract header. -/
lemma next_slot_unfold (h : TileGroupHeader) :
    h.next_empty_tuple_slot
      = if h.num_tuple_slot % 2 ^ 32 ≤ h.next_tuple_slot then
          (u32MAX, { h with next_tuple_slot := (h.next_tuple_slot + 1) % 2 ^ 32 })
        else
          (h.next_tuple_slot,
           { h with next_tuple_slot := (h.next_tuple_slot + 1) % 2 ^ 32 }) := rfl

/-- On a fresh header of positive capacity below 2^32, the first call hands
out slot 0. -/
lemma first_slot_zero (C : Nat) (hC0 : 0 < C) (hC : C < 2 ^ 32) :
    ((⟨0, C⟩ : TileGroupHeader).next_empty_tuple_slot).1 = 0 := by
  rw [next_slot_unfold,
    show (⟨0, C⟩ : TileGroupHeader).num_tuple_slot = C from rfl,
    show (⟨0, C⟩ : TileGroupHeader).next_tuple_slot = 0 from rfl,
    if_neg (by omega)]

/-! ## Claim theorems -/

/-- C1, counterexample to the claim as stated: the claim quantifies over
every capacity C, but the capacity is compared as `num_tuple_slot as u32`.
With C = 2^32 (legal for the usize field) the truncated capacity is 0, so
the very first allocation returns the Full sentinel instead of slot 0,
although N = 1 ≤ C. -/
theorem C1_counterexample :
    1 ≤ 2 ^ 32 ∧ (allocSeq 1 (TileGroupHeader.new (2 ^ 32))).1 ≠ List.range 1 := by
  decide

/-- C1 (amended): for every capacity C < 2^32 and every N ≤ 2^32 calls, the
i-th call (0-based) returns slot id i while i < C and the Full sentinel
u32::MAX once i ≥ C; in particular for N ≤ C the ids are exactly 0,…,N-1 in
order with no repeats, and calls C+1,…,2^32 all return Full.  (Beyond 2^32
total calls the cursor wraps; see the C9 theorem.) -/
theorem C1_alloc_ids (C N : Nat) (hC : C < 2 ^ 32) (hN : N ≤ 2 ^ 32) :
    (allocSeq N (TileGroupHeader.new C)).1
      = (List.range N).map (fun i => if C ≤ i then u32MAX else i) := by
  have h := allocSeq_closed C hC N 0 (by omega) (by omega)
  have hnew : TileGroupHeader.new C
      = ({ next_tuple_slot := 0, num_tuple_slot := C } : TileGroupHeader) := rfl
  have hf : (fun i => if C ≤ 0 + i then u32MAX else 0 + i)
      = (fun i => if C ≤ i then u32MAX else i) := by
    funext i
    rw [Nat.zero_add]
  rw [hnew, h]
  show (List.range N).map (fun i => if C ≤ 0 + i then u32MAX else 0 + i) = _
  rw [hf]

/-- C1 witness: capacity 3, five calls — ids 0,1,2 then Full, Full (the
spec's own scenario of a capacity-3 group receiving more inserts). -/
theorem C1_alloc_ids_witness :
    3 < 2 ^ 32 ∧ 5 ≤ 2 ^ 32 ∧
      (allocSeq 5 (TileGroupHeader.new 3)).1
        = (List.range 5).map (fun i => if 3 ≤ i then u32MAX else i) :=
  ⟨by decide, by decide, C1_alloc_ids 3 5 (by decide) (by decide)⟩

/-- C9: the Full sentinel is not sticky.  (1) On a fresh header of capacity
0 < C < 2^32, the first call returns slot 0, and after 2^32 total calls the
wrapping fetch_add has brought the cursor back to 0, so the next call
returns slot 0 again — a previously handed-out id.  (2) A call that takes
the non-sentinel branch (cursor below truncated capacity) returns the
cursor value, which can never equal u32::MAX — the sentinel is reserved. -/
theorem C9_cursor_wraps :
    (∀ C : Nat, 0 < C → C < 2 ^ 32 →
      ((TileGroupHeader.new C).next_empty_tuple_slot).1 = 0 ∧
      ((allocSeq (2 ^ 32) (TileGroupHeader.new C)).2).next_tuple_slot = 0 ∧
      (((allocSeq (2 ^ 32) (TileGroupHeader.new C)).2).next_empty_tuple_slot).1 = 0) ∧
    (∀ h : TileGroupHeader, h.next_tuple_slot < h.num_tuple_slot % 2 ^ 32 →
      (h.next_empty_tuple_slot).1 = h.next_tuple_slot ∧
      (h.next_empty_tuple_slot).1 ≠ u32MAX) := by
  constructor
  · intro C hC0 hC
    have h := allocSeq_closed C hC (2 ^ 32) 0 (by omega) (by omega)
    have hnew : TileGroupHeader.new C
        = ({ next_tuple_slot := 0, num_tuple_slot := C } : TileGroupHeader) := rfl
    have e : (0 + 2 ^ 32) % 2 ^ 32 = 0 := by omega
    refine ⟨?_, ?_, ?_⟩
    · rw [hnew]
      exact first_slot_zero C hC0 hC
    · rw [hnew, h]
      show (0 + 2 ^ 32) % 2 ^ 32 = 0
      exact e
    · rw [hnew, h]
      show ((({ next_tuple_slot := (0 + 2 ^ 32) % 2 ^ 32, num_tuple_slot := C } :
          TileGroupHeader)).next_empty_tuple_slot).1 = 0
      rw [e]
      exact first_slot_zero C hC0 hC
  · intro h hlt
    have hm : u32MAX = 2 ^ 32 - 1 := rfl
    rw [next_slot_unfold, if_neg (by omega)]
    exact ⟨rfl, by simp only [hm]; omega⟩

/-- C9 witness: capacity 1 — the first call returns 0, the call after the
2^32-th also returns 0, and a below-capacity call never returns u32::MAX. -/
theorem C9_cursor_wraps_witness :
    (((TileGroupHeader.new 1).next_empty_tuple_slot).1 = 0 ∧
      (((allocSeq (2 ^ 32) (TileGroupHeader.new 1)).2).next_empty_tuple_slot).1 = 0) ∧
    ((⟨0, 1⟩ : TileGroupHeader).next_empty_tuple_slot).1 ≠ u32MAX :=
  ⟨⟨(C9_cursor_wraps.1 1 (by decide) (by decide)).1,
    (C9_cursor_wraps.1 1 (by decide) (by decide)).2.2⟩,
   (C9_cursor_wraps.2 ⟨0, 1⟩ (by decide)).2⟩

/-- Concrete one-Integer-column schema (tuple_length 4) used as a failing
input for the C2 window claim. -/
def intSchemaA : Schema :=
  Schema.new [{ value_type := .Integer, length := 4, name := "A",
                is_inlined := true, col_offset := 0 }]

/-- The corresponding two-slot tile: its buffer is 2 * 4 = 8 bytes. -/
def tileA : Tile := Tile.new intSchemaA 2

/-- C2: code bug.  For the two-slot Integer tile, get_tuple_location at slot
1 returns the byte window starting at 4 with length tile_size = 8 — i.e.
[4, 12) — because the source passes `self.tile_size`, not
`schema.tuple_length`, as the slice length to from_raw_parts_mut.  The
claimed window is [4, 8), and the returned one leaves the 8-byte buffer. -/
theorem C2_window_overrun :
    tileA.get_tuple_location 1 = (4, 8) ∧
    intSchemaA.tuple_length = 4 ∧
    tileA.tile_size = 8 ∧
    tileA.tile_size < 4 + 8 := by
  decide


/-- An empty lock table, used as a concrete LockMgr input. -/
def emptyMgr : LockMgr := { lock_table := [] }

/-- A ReadCommitted transaction in Shrinking phase that already holds a
shared lock on row 7. -/
def rcShrinkTxn : Txn :=
  { isolation_level := .ReadCommitted, state := .Shrinking,
    shared_rids := [7], excl_rids := [], outcome := .Running }

/-- C3, counterexample to the claim as stated: a ReadCommitted transaction
in the Shrinking phase that already holds a shared lock on row 7 gets
`true` (the already-held no-op) from lock_s and is not aborted — the
`_ => {}` arm of the isolation-level match performs no phase check. -/
theorem C3_counterexample :
    rcShrinkTxn.state = TwoPLState.Shrinking ∧
    (emptyMgr.lock_s rcShrinkTxn 7).1 = LockSOutcome.granted ∧
    ((emptyMgr.lock_s rcShrinkTxn 7).2.1).outcome = TxnOutcome.Running := by
  decide

/-- C3 (amended): the Shrinking check of lock_s applies only under
RepeatableRead — every RepeatableRead transaction in Shrinking gets false
(failed) and is aborted, with the lock table untouched; ReadUncommitted
fails for its own reason, and ReadCommitted (and Serializable) get no phase
check at all. -/
theorem C3_shrinking_rr_aborts (m : LockMgr) (txn : Txn) (rid : Nat)
    (hiso : txn.isolation_level = IsolationLevel.RepeatableRead)
    (hst : txn.state = TwoPLState.Shrinking) :
    m.lock_s txn rid = (LockSOutcome.failed, txn.abortTxn, m) := by
  simp [LockMgr.lock_s, hiso, hst]

/-- A RepeatableRead transaction in Shrinking phase holding no locks. -/
def rrShrinkTxn : Txn :=
  { isolation_level := .RepeatableRead, state := .Shrinking,
    shared_rids := [], excl_rids := [], outcome := .Running }

/-- C3 witness: a concrete RepeatableRead transaction in Shrinking. -/
theorem C3_shrinking_rr_aborts_witness :
    rrShrinkTxn.isolation_level = IsolationLevel.RepeatableRead ∧
    rrShrinkTxn.state = TwoPLState.Shrinking ∧
    emptyMgr.lock_s rrShrinkTxn 3
      = (LockSOutcome.failed, rrShrinkTxn.abortTxn, emptyMgr) :=
  ⟨rfl, rfl, C3_shrinking_rr_aborts emptyMgr rrShrinkTxn 3 rfl rfl⟩

/-- C4: under ReadUncommitted, lock_s returns false and aborts the
transaction unconditionally — the result is the same for every lock-set
content and every lock table, because the failure is decided before either
is consulted. -/
theorem C4_ru_aborts (m : LockMgr) (txn : Txn) (rid : Nat)
    (hiso : txn.isolation_level = IsolationLevel.ReadUncommitted) :
    m.lock_s txn rid = (LockSOutcome.failed, txn.abortTxn, m) := by
  simp [LockMgr.lock_s, hiso]

/-- A ReadUncommitted transaction holding a shared lock on 5 and an
exclusive lock on 6. -/
def ruTxn : Txn :=
  { isolation_level := .ReadUncommitted, state := .Growing,
    shared_rids := [5], excl_rids := [6], outcome := .Running }

/-- C4 witness: a ReadUncommitted transaction that even holds locks on the
requested row still gets false + abort. -/
theorem C4_ru_aborts_witness :
    ruTxn.isolation_level = IsolationLevel.ReadUncommitted ∧
    emptyMgr.lock_s ruTxn 5 = (LockSOutcome.failed, ruTxn.abortTxn, emptyMgr) :=
  ⟨rfl, C4_ru_aborts emptyMgr ruTxn 5 rfl⟩

/-- A ReadUncommitted transaction that already holds the exclusive lock on
row 9. -/
def ruHolderTxn : Txn :=
  { isolation_level := .ReadUncommitted, state := .Growing,
    shared_rids := [], excl_rids := [9], outcome := .Running }

/-- C8, counterexample to the claim as stated: a ReadUncommitted transaction
already holding the exclusive lock on row 9 does not get the true no-op —
lock_s aborts it and returns false, because the isolation-level check runs
before the already-held test. -/
theorem C8_counterexample :
    ruHolderTxn.x_locked 9 = true ∧
    (emptyMgr.lock_s ruHolderTxn 9).1 = LockSOutcome.failed ∧
    ((emptyMgr.lock_s ruHolderTxn 9).2.1).outcome = TxnOutcome.Aborted := by
  decide

/-- C8 (amended): for every transaction that passes the isolation/phase
checks (not ReadUncommitted, and not a Shrinking RepeatableRead) and
already holds a shared or exclusive lock on the row, lock_s returns true
as a pure no-op — transaction state, lock sets, phase and the lock table
are all returned unchanged. -/
theorem C8_held_noop (m : LockMgr) (txn : Txn) (rid : Nat)
    (hru : txn.isolation_level ≠ IsolationLevel.ReadUncommitted)
    (hsh : txn.isolation_level = IsolationLevel.RepeatableRead →
      txn.state ≠ TwoPLState.Shrinking)
    (hheld : (txn.s_locked rid || txn.x_locked rid) = true) :
    m.lock_s txn rid = (LockSOutcome.granted, txn, m) := by
  cases hlv : txn.isolation_level with
  | ReadUncommitted => exact absurd hlv hru
  | RepeatableRead =>
      have hns := hsh hlv
      simp [LockMgr.lock_s, hlv, hns, lockSTail, hheld]
  | ReadCommitted => simp [LockMgr.lock_s, hlv, lockSTail, hheld]
  | Serializable => simp [LockMgr.lock_s, hlv, lockSTail, hheld]

/-- A ReadCommitted Growing transaction holding shared on row 4. -/
def rcHolderTxn : Txn :=
  { isolation_level := .ReadCommitted, state := .Growing,
    shared_rids := [4], excl_rids := [], outcome := .Running }

/-- C8 witness: a ReadCommitted Growing transaction holding shared on row 4
gets the true no-op. -/
theorem C8_held_noop_witness :
    rcHolderTxn.s_locked 4 = true ∧
    emptyMgr.lock_s rcHolderTxn 4
      = (LockSOutcome.granted, rcHolderTxn, emptyMgr) :=
  ⟨by decide, C8_held_noop emptyMgr rcHolderTxn 4
    (by decide) (by decide) (by decide)⟩

/-- A column that is declared non-inlined although its value type is the
fixed-width Integer — exactly what the C5 claim says must be rejected. -/
def badCol : Column :=
  { value_type := .Integer, length := 4, name := "bad",
    is_inlined := false, col_offset := 0 }

/-- C5, counterexample to the claim as stated: Schema::new has no error path
(it returns Self, not a Result) and performs no validation — a column that
is non-inlined yet of the fixed-width type Integer is accepted silently and
recorded in the constructed schema, rather than failing construction. -/
theorem C5_counterexample :
    badCol.is_inlined = false ∧
    (Schema.new [badCol]).col_is_inlined = [false] ∧
    (Schema.new [badCol]).col_types = [ValueType.Integer] ∧
    (Schema.new [badCol]).tuple_length = 4 := by
  decide

/-- C5 (amended): Schema::new itself never fails and copies the inline flags
as given; the non-inlined ⇒ variable-length check lives one layer up, in
Column::new_dynamic, which produces a column only for Varchar (always
non-inlined) and panics for every other value type. -/
theorem C5_validation_in_new_dynamic :
    (∀ (vt : ValueType) (name : String) (len : Nat) (c : Column),
      Column.new_dynamic vt name len = some c →
        vt = ValueType.Varchar ∧ c.is_inlined = false) ∧
    (∀ (vt : ValueType) (name : String) (len : Nat),
      vt ≠ ValueType.Varchar → Column.new_dynamic vt name len = none) ∧
    (∀ cols : List Column,
      (Schema.new cols).col_is_inlined = cols.map Column.is_inlined) := by
  refine ⟨?_, ?_, ?_⟩
  · intro vt name len c h
    cases vt with
    | Varchar =>
        simp only [Column.new_dynamic, Option.some.injEq] at h
        exact ⟨rfl, by rw [← h]⟩
    | Integer => simp [Column.new_dynamic] at h
    | Double => simp [Column.new_dynamic] at h
    | TinyInt => simp [Column.new_dynamic] at h
  · intro vt name len hvt
    cases vt with
    | Varchar => exact absurd rfl hvt
    | Integer => rfl
    | Double => rfl
    | TinyInt => rfl
  · intro cols
    rfl

/-- The Varchar column new_dynamic builds for the C5 witness. -/
def varcharColD : Column :=
  { value_type := .Varchar, length := 50, name := "D",
    is_inlined := false, col_offset := 0 }

/-- C5 witness: new_dynamic accepts Varchar (non-inlined) and rejects a
concrete non-Varchar type. -/
theorem C5_validation_witness :
    Column.new_dynamic ValueType.Varchar "D" 50 = some varcharColD ∧
    (ValueType.Varchar = ValueType.Varchar ∧ varcharColD.is_inlined = false) ∧
    (ValueType.Integer ≠ ValueType.Varchar ∧
      Column.new_dynamic ValueType.Integer "E" 8 = none) :=
  ⟨rfl,
   C5_validation_in_new_dynamic.1 ValueType.Varchar "D" 50 varcharColD rfl,
   ⟨by decide, C5_validation_in_new_dynamic.2.1 ValueType.Integer "E" 8 (by decide)⟩⟩

/-- C7: Schema::new assigns each column's offset in declaration order as the
sum of the lengths of all preceding columns (offsets are the prefix sums of
the declared lengths, hence non-overlapping), leaves every declared length
unchanged, and sets tuple_length to the sum of all declared lengths —
including the fixed declared length of variable-length columns, which is
simply each column's `length` field. -/
theorem C7_offsets_prefix_sums (cols : List Column) :
    ((Schema.new cols).cols).map Column.col_offset
      = (List.range cols.length).map (fun i => ((cols.map Column.length).take i).sum)
    ∧ ((Schema.new cols).cols).map Column.length = cols.map Column.length
    ∧ (Schema.new cols).tuple_length = (cols.map Column.length).sum := by
  refine ⟨?_, ?_, ?_⟩
  · have h := assignOffsets_map_offset cols 0
    have hf : (fun i => 0 + ((cols.map Column.length).take i).sum)
        = (fun i => ((cols.map Column.length).take i).sum) := by
      funext i
      rw [Nat.zero_add]
    show ((assignOffsets cols 0).1).map Column.col_offset = _
    rw [h, hf]
  · show ((assignOffsets cols 0).1).map Column.length = _
    exact assignOffsets_map_length cols 0
  · show (assignOffsets cols 0).2 = _
    rw [assignOffsets_snd cols 0, Nat.zero_add]

/-- C10: Column::new_static panics exactly on Varchar (ValueType::get_length
has no arm for it) and succeeds with the fixed widths 4/8/1 for
Integer/Double/TinyInt, always marking the column inlined; Varchar columns
are obtained through Column::new_dynamic instead, which accepts them. -/
theorem C10_new_static_domain :
    (∀ name : String, Column.new_static ValueType.Varchar name = none) ∧
    (∀ name : String, Column.new_static ValueType.Integer name
      = some { value_type := .Integer, length := 4, name := name,
               is_inlined := true, col_offset := 0 }) ∧
    (∀ name : String, Column.new_static ValueType.Double name
      = some { value_type := .Double, length := 8, name := name,
               is_inlined := true, col_offset := 0 }) ∧
    (∀ name : String, Column.new_static ValueType.TinyInt name
      = some { value_type := .TinyInt, length := 1, name := name,
               is_inlined := true, col_offset := 0 }) ∧
    (∀ (name : String) (len : Nat), Column.new_dynamic ValueType.Varchar name len
      = some { value_type := .Varchar, length := len, name := name,
               is_inlined := false, col_offset := 0 }) :=
  ⟨fun _ => rfl, fun _ => rfl, fun _ => rfl, fun _ => rfl, fun _ _ => rfl⟩

/-- C6: on a full tile group — cursor at or past the capacity — insert_tuple
returns the Full sentinel u32::MAX and leaves every tile's buffer exactly as
it was: the early return fires before the column-write loop runs. -/
theorem C6_insert_full_noop (g : TileGroupState) (tuple : List Value)
    (hfull : g.header.num_tuple_slot ≤ g.header.next_tuple_slot)
    (hcur : g.header.next_tuple_slot < 2 ^ 32) :
    (g.insert_tuple tuple).1 = u32MAX ∧ (g.insert_tuple tuple).2.tiles = g.tiles := by
  have hstep : (g.header.next_empty_tuple_slot).1 = u32MAX := by
    rw [next_slot_unfold, if_pos (by omega)]
  have hunf : g.insert_tuple tuple
      = if (g.header.next_empty_tuple_slot).1 = u32MAX then
          ((g.header.next_empty_tuple_slot).1,
           { g with header := (g.header.next_empty_tuple_slot).2 })
        else
          ((g.header.next_empty_tuple_slot).1,
           { g with header := (g.header.next_empty_tuple_slot).2,
                    tiles := writeTiles (g.header.next_empty_tuple_slot).1
                      g.tiles g.schemas tuple }) := rfl
  rw [hunf, if_pos hstep]
  exact ⟨hstep, rfl⟩

/-- A one-tile group of capacity 2 whose cursor already reached 2: full. -/
def fullGroup : TileGroupState :=
  { tiles := [[0, 0, 0, 0, 0, 0, 0, 0]],
    schemas := [intSchemaA],
    header := { next_tuple_slot := 2, num_tuple_slot := 2 } }

/-- C6 witness: inserting into the full group returns u32::MAX and its only
tile's 8-byte buffer is unchanged. -/
theorem C6_insert_full_noop_witness :
    fullGroup.header.num_tuple_slot ≤ fullGroup.header.next_tuple_slot ∧
    (fullGroup.insert_tuple [[9, 9, 9, 9]]).1 = u32MAX ∧
    (fullGroup.insert_tuple [[9, 9, 9, 9]]).2.tiles = fullGroup.tiles :=
  ⟨by decide,
   (C6_insert_full_noop fullGroup [[9, 9, 9, 9]] (by decide) (by decide)).1,
   (C6_insert_full_noop fullGroup [[9, 9, 9, 9]] (by decide) (by decide)).2⟩

end EmberDB
